import Mathlib

/-!
Shallow embedding of the brixacore governance services: the lifecycle
state-machine engine (`src/lifecycle/models.py`, `src/lifecycle/utils.py`)
and the numbering engine (`src/numbering/models.py`, `src/numbering/utils.py`).
Django tables become lists of records, queries become `List.find?`, raised
exceptions become `Except` errors, and `@transaction.atomic` becomes the
error branch returning the database unchanged.
-/

namespace Brixa

/-- A calendar date, as used by `timezone.now().date()`: only the year,
month and day components are read by the numbering code. -/
structure Date where
  year : Nat
  month : Nat
  day : Nat
deriving DecidableEq, Repr

/-- An authenticated user together with the permissions it holds;
`has_perm` is Django's `user.has_perm`. -/
structure Principal where
  username : String
  perms : List String
deriving DecidableEq, Repr

/-- Permission check: `user.has_perm(p)`. -/
def Principal.has_perm (u : Principal) (p : String) : Bool :=
  u.perms.contains p

/-- The `state_type` choices of `LifecycleStateDef.STATE_TYPE_CHOICES`. -/
inductive StateType where
  | normal
  | locked
  | final
deriving DecidableEq, Repr, BEq

/-- One row of the `LifecycleStateDef` table (`src/lifecycle/models.py`).
`is_active` is the soft-delete flag inherited from `BaseModel`. -/
structure LifecycleStateDef where
  entity_type : String
  state_name : String
  state_label : String
  state_type : StateType
  is_default : Bool
  is_active : Bool
deriving DecidableEq, Repr

/-- One row of the `LifecycleTransitionRule` table. A blank
`required_permission` (empty string) means no permission is required,
matching the `blank=True` CharField and the Python truthiness test. -/
structure LifecycleTransitionRule where
  entity_type : String
  from_state : String
  to_state : String
  required_permission : String
  requires_reason : Bool
  is_active : Bool
deriving DecidableEq, Repr

/-- One row of the `LifecycleTransitionAudit` table. `pk` is `None` for an
unsaved instance and set by `objects.create`; the `save`/`delete`
overrides test it. `reason` stores `reason or ''`. -/
structure LifecycleTransitionAudit where
  pk : Option Nat
  user : Option Principal
  entity_type : String
  entity_id : String
  from_state : String
  to_state : String
  reason : String
  is_override : Bool
deriving DecidableEq, Repr

/-- The lifecycle framework's tables. -/
structure LifecycleDB where
  stateDefs : List LifecycleStateDef
  transitionRules : List LifecycleTransitionRule
  audits : List LifecycleTransitionAudit
deriving DecidableEq, Repr

/-- The errors the lifecycle engine raises: `InvalidTransitionError`
carries `validate_transition`'s optional message, `LockedStateError` the
mixin's message. -/
inductive LifecycleErr where
  | invalidTransition (msg : Option String)
  | lockedState (msg : String)
deriving DecidableEq, Repr

/-- The `LifecycleStateDef.objects.get(entity_type=…, state_name=…,
is_active=True)` lookup; the unique constraint on (entity_type,
state_name) makes `find?` coincide with Django's `get`. -/
def findStateDef (db : LifecycleDB) (entity_type state_name : String) :
    Option LifecycleStateDef :=
  db.stateDefs.find? fun sd =>
    sd.entity_type == entity_type && sd.state_name == state_name && sd.is_active

/-- The `LifecycleTransitionRule.objects.get(entity_type=…, from_state=…,
to_state=…, is_active=True)` lookup. -/
def findRuleRow (db : LifecycleDB) (entity_type from_state to_state : String) :
    Option LifecycleTransitionRule :=
  db.transitionRules.find? fun r =>
    r.entity_type == entity_type && r.from_state == from_state &&
      r.to_state == to_state && r.is_active

/-- Embeds `is_state_locked` (`src/lifecycle/utils.py:61`): a missing or
inactive state definition yields `false`. -/
def is_state_locked (db : LifecycleDB) (entity_type state_name : String) : Bool :=
  match findStateDef db entity_type state_name with
  | some sd => sd.state_type == StateType.locked || sd.state_type == StateType.final
  | none => false

/-- Embeds `is_state_final` (`src/lifecycle/utils.py:78`). -/
def is_state_final (db : LifecycleDB) (entity_type state_name : String) : Bool :=
  match findStateDef db entity_type state_name with
  | some sd => sd.state_type == StateType.final
  | none => false

/-- Embeds `can_transition` (`src/lifecycle/utils.py:109`): deny
self-transitions, deny from final states, deny when no active rule row
exists, deny when the rule names a permission the supplied user lacks. -/
def can_transition (db : LifecycleDB) (entity_type from_state to_state : String)
    (user : Option Principal) : Bool :=
  if from_state == to_state then false
  else if is_state_final db entity_type from_state then false
  else
    match findRuleRow db entity_type from_state to_state with
    | none => false
    | some rule =>
      match user with
      | some u =>
        if rule.required_permission != "" && !(u.has_perm rule.required_permission) then
          false
        else true
      | none => true

/-- Embeds `validate_transition` (`src/lifecycle/utils.py:153`), returning
the `(is_valid, error_message)` pair. A reason of `None` or `""` is falsy
in Python, hence the `getD ""` test. -/
def validate_transition (db : LifecycleDB) (entity_type from_state to_state : String)
    (reason : Option String) (user : Option Principal) : Bool × Option String :=
  if !(can_transition db entity_type from_state to_state user) then
    if is_state_final db entity_type from_state then
      (false, some ("Cannot transition from final state: " ++ from_state))
    else
      (false, some ("Transition not allowed: " ++ from_state ++ " -> " ++ to_state))
  else
    match findRuleRow db entity_type from_state to_state with
    | some rule =>
      if rule.requires_reason && (reason.getD "" == "") then
        (false, some "Reason is required for this transition")
      else (true, none)
    | none => (false, some "Transition rule not found")

/-- Embeds `perform_transition` (`src/lifecycle/utils.py:189`): validate,
then create one audit row; on failure raise `InvalidTransitionError` with
the validator's message and, because of `@transaction.atomic`, leave the
database untouched. The pair returned is (outcome, resulting database). -/
def perform_transition (db : LifecycleDB) (entity_type entity_id from_state to_state : String)
    (user : Option Principal) (reason : Option String) (is_override : Bool) :
    Except LifecycleErr LifecycleTransitionAudit × LifecycleDB :=
  let v := validate_transition db entity_type from_state to_state reason user
  if v.1 then
    let audit_entry : LifecycleTransitionAudit :=
      { pk := some db.audits.length
        user := user
        entity_type := entity_type
        entity_id := entity_id
        from_state := from_state
        to_state := to_state
        reason := reason.getD ""
        is_override := is_override }
    (Except.ok audit_entry, { db with audits := db.audits ++ [audit_entry] })
  else
    (Except.error (LifecycleErr.invalidTransition v.2), db)

/-- Embeds the `save` override of `LifecycleTransitionAudit`
(`src/lifecycle/models.py:231`): a persisted entry (`pk` set) cannot be
saved again; an unsaved one is inserted. -/
def LifecycleTransitionAudit.save (a : LifecycleTransitionAudit) (db : LifecycleDB) :
    Except String LifecycleDB :=
  if a.pk.isSome then
    Except.error "Lifecycle audit entries are immutable and cannot be modified"
  else
    Except.ok { db with audits := db.audits ++ [{ a with pk := some db.audits.length }] }

/-- Embeds the `delete` override of `LifecycleTransitionAudit`
(`src/lifecycle/models.py:227`): always raises. -/
def LifecycleTransitionAudit.delete (_ : LifecycleTransitionAudit) (_ : LifecycleDB) :
    Except String LifecycleDB :=
  Except.error "Lifecycle audit entries are immutable and cannot be deleted"

/-- The entity-side fields a `LifecycleModel` carries into the
`LifecycleTransitionMixin`. -/
structure LifecycleEntity where
  entity_type : String
  id : String
  lifecycle_state : String
deriving DecidableEq, Repr

/-- Embeds `LifecycleTransitionMixin.perform_lifecycle_transition`
(`src/lifecycle/utils.py:257`): raise `LockedStateError` when the current
state is locked, otherwise run `perform_transition` and update the
entity's `lifecycle_state`. -/
def perform_lifecycle_transition (db : LifecycleDB) (e : LifecycleEntity)
    (to_state : String) (user : Option Principal) (reason : Option String)
    (is_override : Bool) : Except LifecycleErr LifecycleEntity × LifecycleDB :=
  if is_state_locked db e.entity_type e.lifecycle_state then
    (Except.error (LifecycleErr.lockedState
      ("Cannot modify entity in locked state: " ++ e.lifecycle_state)), db)
  else
    match perform_transition db e.entity_type e.id e.lifecycle_state to_state
        user reason is_override with
    | (Except.ok _, db1) => (Except.ok { e with lifecycle_state := to_state }, db1)
    | (Except.error err, db1) => (Except.error err, db1)

/-- One row of the `NumberingRule` table (`src/numbering/models.py`).
`prefixText` embeds the model's `prefix` field (a Lean keyword);
`year_format` is the `'YYYY' | 'YY'` choice, `reset_behavior` the
`'none' | 'yearly' | 'monthly'` choice. -/
structure NumberingRule where
  entity_type : String
  is_enabled : Bool
  prefixText : String
  include_year : Bool
  year_format : String
  include_month : Bool
  sequence_length : Nat
  delimiter : String
  reset_behavior : String
deriving DecidableEq, Repr

/-- One row of the `NumberSequence` table: the per-rule counter and the
date of its last reset. -/
structure NumberSequence where
  current_value : Nat
  last_reset_date : Option Date
deriving DecidableEq, Repr

/-- One row of the `AssignedNumber` table. -/
structure AssignedNumber where
  rule_entity_type : String
  entity_type : String
  entity_id : String
  number : String
  assigned_by : String
deriving DecidableEq, Repr

/-- The numbering service's tables; sequences are keyed by the rule's
unique `entity_type` (the model's one-to-one `rule` reference). -/
structure NumberingDB where
  rules : List NumberingRule
  sequences : List (String × NumberSequence)
  assigned : List AssignedNumber
deriving DecidableEq, Repr

/-- The errors the numbering service raises for the operations embedded
here: Django's `ValidationError`, `NoRuleDefinedError` and
`NumberingDisabledError`. -/
inductive NumberingErr where
  | validationError (msg : String)
  | noRuleDefined (msg : String)
  | numberingDisabled (msg : String)
deriving DecidableEq, Repr

/-- The `NumberingRule.objects.get(entity_type=…)` lookup; `entity_type`
is unique on the table, so `find?` coincides with Django's `get`. -/
def findNumberingRule (db : NumberingDB) (entity_type : String) : Option NumberingRule :=
  db.rules.find? fun r => r.entity_type == entity_type

/-- Embeds `get_or_create_sequence` (`src/numbering/utils.py:37`): return
the existing counter row or create one with the model defaults
(`current_value=0`, `last_reset_date=None`). -/
def get_or_create_sequence (db : NumberingDB) (rule : NumberingRule) :
    NumberSequence × NumberingDB :=
  match db.sequences.find? fun p => p.1 == rule.entity_type with
  | some p => (p.2, db)
  | none =>
    let s : NumberSequence := { current_value := 0, last_reset_date := none }
    (s, { db with sequences := db.sequences ++ [(rule.entity_type, s)] })

/-- Embeds `check_reset_needed` (`src/numbering/utils.py:51`) as a pure
function of the rule, the counter row and today's date, returning the
flag the Python returns together with the possibly reset-and-saved row. -/
def check_reset_needed (rule : NumberingRule) (seq : NumberSequence) (today : Date) :
    Bool × NumberSequence :=
  if rule.reset_behavior == "none" then (false, seq)
  else if rule.reset_behavior == "yearly" then
    match seq.last_reset_date with
    | none => (true, { current_value := 0, last_reset_date := some today })
    | some d =>
      if d.year != today.year then
        (true, { current_value := 0, last_reset_date := some today })
      else (false, seq)
  else if rule.reset_behavior == "monthly" then
    match seq.last_reset_date with
    | none => (true, { current_value := 0, last_reset_date := some today })
    | some d =>
      if d.month != today.month || d.year != today.year then
        (true, { current_value := 0, last_reset_date := some today })
      else (false, seq)
  else (false, seq)

/-- Embeds `get_next_sequence_value` (`src/numbering/utils.py:86`) on a
single counter row: the optimistic pre-lock reset check, the re-check
after `select_for_update`, then the increment.  Sequential (single-caller)
semantics, which is what the row lock enforces. -/
def get_next_sequence_value (rule : NumberingRule) (seq : NumberSequence) (today : Date) :
    Nat × NumberSequence :=
  let s1 := (check_reset_needed rule seq today).2
  let s2 := (check_reset_needed rule s1 today).2
  let next_value := s2.current_value + 1
  (next_value, { s2 with current_value := next_value })

/-- Replaces the counter row bound to `entity_type` (the `sequence.save()`
persistence inside the locked section). -/
def storeSequence (db : NumberingDB) (entity_type : String) (seq : NumberSequence) :
    NumberingDB :=
  { db with sequences := db.sequences.map fun p =>
      if p.1 == entity_type then (p.1, seq) else p }

/-- Embeds `get_next_sequence_value` at the database level:
`get_or_create_sequence`, then the reset-check/increment on that row,
persisted back. -/
def get_next_sequence_value_db (db : NumberingDB) (rule : NumberingRule) (today : Date) :
    Nat × NumberingDB :=
  let r0 := get_or_create_sequence db rule
  let r1 := get_next_sequence_value rule r0.1 today
  (r1.1, storeSequence r0.2 rule.entity_type r1.2)

/-- Python's `str.zfill`: left-pad with zeros to the requested width (no
sign handling is needed for the natural numbers formatted here). -/
def zfill (width : Nat) (s : String) : String :=
  if s.length < width then String.mk (List.replicate (width - s.length) '0') ++ s
  else s

/-- Embeds `format_number` (`src/numbering/utils.py:126`): build the
component list (prefix if truthy, year if enabled — two digits when
`year_format == 'YY'`, month if enabled, zero-padded sequence) and join
it with the rule's delimiter. -/
def format_number (rule : NumberingRule) (sequence_value : Nat) (today : Date) : String :=
  let components : List String := []
  let components := if rule.prefixText != "" then components ++ [rule.prefixText]
    else components
  let components := if rule.include_year then
      components ++ [if rule.year_format == "YY" then
          zfill 2 (toString (today.year % 100))
        else toString today.year]
    else components
  let components := if rule.include_month then
      components ++ [zfill 2 (toString today.month)]
    else components
  let components := components ++ [zfill rule.sequence_length (toString sequence_value)]
  String.intercalate rule.delimiter components

/-- Embeds `generate_number` (`src/numbering/utils.py:166`): look up the
rule (absent ⇒ `NoRuleDefinedError`), check `is_enabled` (off ⇒
`NumberingDisabledError`), draw the next sequence value and format it. -/
def generate_number (db : NumberingDB) (entity_type : String) (today : Date) :
    Except NumberingErr (String × NumberingDB) :=
  match findNumberingRule db entity_type with
  | none => Except.error (NumberingErr.noRuleDefined
      ("No numbering rule defined for: " ++ entity_type))
  | some rule =>
    if !rule.is_enabled then
      Except.error (NumberingErr.numberingDisabled
        ("Numbering disabled for: " ++ entity_type))
    else
      let r := get_next_sequence_value_db db rule today
      Except.ok (format_number rule r.1 today, r.2)

/-- Embeds `assign_number` (`src/numbering/utils.py:207`): reject when an
`AssignedNumber` already exists for (entity_type, entity_id), otherwise
generate a number and create the assignment row; `@transaction.atomic`
makes every error branch leave the database unchanged (the error return
carries no new database). -/
def assign_number (db : NumberingDB) (entity_type entity_id user : String)
    (auto_generate : Bool) (today : Date) :
    Except NumberingErr (AssignedNumber × NumberingDB) :=
  match db.assigned.find? fun a => a.entity_type == entity_type && a.entity_id == entity_id with
  | some existing =>
    Except.error (NumberingErr.validationError
      (entity_type ++ ":" ++ entity_id ++ " already has assigned number: " ++ existing.number))
  | none =>
    if auto_generate then
      match generate_number db entity_type today with
      | Except.error e => Except.error e
      | Except.ok (number, db1) =>
        match findNumberingRule db1 entity_type with
        | none => Except.error (NumberingErr.noRuleDefined
            ("No numbering rule defined for: " ++ entity_type))
        | some rule =>
          let assigned : AssignedNumber :=
            { rule_entity_type := rule.entity_type
              entity_type := entity_type
              entity_id := entity_id
              number := number
              assigned_by := user }
          Except.ok (assigned, { db1 with assigned := db1.assigned ++ [assigned] })
    else
      Except.error (NumberingErr.validationError "Manual number assignment not supported")

/-- The claim C9 harness: perform `n` successive `get_next_sequence_value`
calls on one rule, threading the counter row, and collect the returned
integers in call order. -/
def nextCalls (rule : NumberingRule) (today : Date) :
    NumberSequence → Nat → List Nat
  | _, 0 => []
  | seq, n + 1 =>
    let r := get_next_sequence_value rule seq today
    r.1 :: nextCalls rule today r.2 n

section LifecycleTheorems

/-- Helper: `validate_transition` never fails without a message — either
the validation succeeded or the error slot is filled. -/
theorem validate_failure_has_message (db : LifecycleDB)
    (entity_type from_state to_state : String) (reason : Option String)
    (user : Option Principal) :
    (validate_transition db entity_type from_state to_state reason user).1 = true ∨
    (validate_transition db entity_type from_state to_state reason user).2.isSome = true := by
  unfold validate_transition
  split
  · split <;> simp
  · split
    · split <;> simp
    · simp

/-- C4: with no active `TransitionRule` row for the exact
(entity_type, from_state, to_state) triple, `can_transition` answers
`false` for every principal — the engine is fail-closed. -/
theorem transition_default_deny (db : LifecycleDB)
    (entity_type from_state to_state : String) (user : Option Principal)
    (h : ∀ r ∈ db.transitionRules,
      ¬(r.entity_type = entity_type ∧ r.from_state = from_state ∧
        r.to_state = to_state ∧ r.is_active = true)) :
    can_transition db entity_type from_state to_state user = false := by
  have hfind : findRuleRow db entity_type from_state to_state = none := by
    unfold findRuleRow
    apply List.find?_eq_none.mpr
    intro r hr hc
    simp only [Bool.and_eq_true, beq_iff_eq] at hc
    exact h r hr ⟨hc.1.1.1, hc.1.1.2, hc.1.2, hc.2⟩
  simp [can_transition, hfind]

/-- Witness for C4: the empty rule table denies draft → submitted. -/
theorem transition_default_deny_witness :
    can_transition ⟨[], [], []⟩ "order" "draft" "submitted" none = false :=
  transition_default_deny ⟨[], [], []⟩ "order" "draft" "submitted" none
    (by intro r hr; cases hr)

/-- C5: a state whose active `StateDefinition` is classified `final` has
no outgoing transition at all — `can_transition` answers `false` for
every destination and every principal, whatever the rule table holds.
The uniqueness hypothesis is the table's unique constraint on
(entity_type, state_name). -/
theorem final_state_denies_all (db : LifecycleDB) (entity_type from_state : String)
    (sd : LifecycleStateDef) (hmem : sd ∈ db.stateDefs)
    (het : sd.entity_type = entity_type) (hsn : sd.state_name = from_state)
    (hact : sd.is_active = true) (hfin : sd.state_type = StateType.final)
    (huniq : ∀ sd' ∈ db.stateDefs, sd'.entity_type = entity_type →
      sd'.state_name = from_state → sd' = sd) :
    ∀ to_state : String, ∀ user : Option Principal,
      can_transition db entity_type from_state to_state user = false := by
  have hfinal : is_state_final db entity_type from_state = true := by
    cases hfd : findStateDef db entity_type from_state with
    | none =>
      exfalso
      unfold findStateDef at hfd
      have hsd := List.find?_eq_none.mp hfd sd hmem
      simp [het, hsn, hact] at hsd
    | some y =>
      have hy : y = sd := by
        unfold findStateDef at hfd
        have hpred := List.find?_some hfd
        have hymem := List.mem_of_find?_eq_some hfd
        simp only [Bool.and_eq_true, beq_iff_eq] at hpred
        exact huniq y hymem hpred.1.1 hpred.1.2
      simp only [is_state_final, hfd, hy, hfin]
      rfl
  intro to_state user
  simp [can_transition, hfinal]

/-- Witness for C5: an active rule row out of "closed" exists, yet the
final classification of "closed" denies the transition. -/
theorem final_state_denies_all_witness :
    can_transition
      ⟨[⟨"order", "closed", "Closed", StateType.final, false, true⟩],
       [⟨"order", "closed", "draft", "", false, true⟩], []⟩
      "order" "closed" "draft" none = false :=
  final_state_denies_all
    ⟨[⟨"order", "closed", "Closed", StateType.final, false, true⟩],
     [⟨"order", "closed", "draft", "", false, true⟩], []⟩
    "order" "closed" ⟨"order", "closed", "Closed", StateType.final, false, true⟩
    (List.mem_singleton.mpr rfl) rfl rfl rfl rfl
    (fun _ h' _ _ => List.mem_singleton.mp h') "draft" none

/-- C10: when no active `StateDefinition` row matches (entity_type,
state_name), both `is_state_locked` and `is_state_final` answer `false`,
and `can_transition` behaves exactly as it does with an empty state
table — the decision comes purely from the rule-row lookup. -/
theorem unknown_state_fail_open (db : LifecycleDB) (entity_type state_name : String)
    (h : ∀ sd ∈ db.stateDefs,
      ¬(sd.entity_type = entity_type ∧ sd.state_name = state_name ∧
        sd.is_active = true)) :
    is_state_locked db entity_type state_name = false ∧
    is_state_final db entity_type state_name = false ∧
    ∀ to_state : String, ∀ user : Option Principal,
      can_transition db entity_type state_name to_state user =
        can_transition { db with stateDefs := [] } entity_type state_name to_state user := by
  have hfd : findStateDef db entity_type state_name = none := by
    unfold findStateDef
    apply List.find?_eq_none.mpr
    intro sd hsd hc
    simp only [Bool.and_eq_true, beq_iff_eq] at hc
    exact h sd hsd ⟨hc.1.1, hc.1.2, hc.2⟩
  have hfd0 : findStateDef { db with stateDefs := [] } entity_type state_name = none := rfl
  refine ⟨by simp [is_state_locked, hfd], by simp [is_state_final, hfd], ?_⟩
  intro to_state user
  have hrules : findRuleRow { db with stateDefs := [] } entity_type state_name to_state
      = findRuleRow db entity_type state_name to_state := rfl
  simp [can_transition, is_state_final, hfd, hfd0, hrules]

/-- Witness for C10: a soft-deactivated "ghost" state is treated as
unregistered and reported neither locked nor final. -/
theorem unknown_state_fail_open_witness :
    is_state_locked ⟨[⟨"order", "ghost", "Ghost", StateType.final, false, false⟩], [], []⟩
      "order" "ghost" = false ∧
    is_state_final ⟨[⟨"order", "ghost", "Ghost", StateType.final, false, false⟩], [], []⟩
      "order" "ghost" = false := by
  have h := unknown_state_fail_open
    ⟨[⟨"order", "ghost", "Ghost", StateType.final, false, false⟩], [], []⟩
    "order" "ghost"
    (by intro sd hsd hc; rw [List.mem_singleton] at hsd; subst hsd; simp at hc)
  exact ⟨h.1, h.2.1⟩

/-- C2: when validation fails, `perform_transition` reports
`InvalidTransitionError` carrying the validator's human-readable message
(which is always present on failure) and the database — the audit table
included — is exactly what it was: no write of any kind happened. -/
theorem denied_transition_no_write (db : LifecycleDB)
    (entity_type entity_id from_state to_state : String) (user : Option Principal)
    (reason : Option String) (is_override : Bool)
    (h : (validate_transition db entity_type from_state to_state reason user).1 = false) :
    (perform_transition db entity_type entity_id from_state to_state user reason is_override).1
      = Except.error (LifecycleErr.invalidTransition
          (validate_transition db entity_type from_state to_state reason user).2) ∧
    (validate_transition db entity_type from_state to_state reason user).2.isSome = true ∧
    (perform_transition db entity_type entity_id from_state to_state user reason is_override).2
      = db := by
  refine ⟨by simp [perform_transition, h], ?_, by simp [perform_transition, h]⟩
  rcases validate_failure_has_message db entity_type from_state to_state reason user with h1 | h2
  · rw [h] at h1; cases h1
  · exact h2

/-- Witness for C2: on the empty database every transition is denied and
the database comes back untouched. -/
theorem denied_transition_no_write_witness :
    (perform_transition ⟨[], [], []⟩ "order" "e1" "draft" "submitted" none none false).2
      = ⟨[], [], []⟩ :=
  (denied_transition_no_write ⟨[], [], []⟩ "order" "e1" "draft" "submitted" none none false
    (by decide)).2.2

/-- C3: a successful `perform_transition` appends exactly one audit entry
to the audit table, that entry is persisted (`pk` set), and both the
`save` (update) and `delete` overrides refuse to touch it. -/
theorem audit_exactly_once_immutable (db : LifecycleDB)
    (entity_type entity_id from_state to_state : String) (user : Option Principal)
    (reason : Option String) (is_override : Bool) (a : LifecycleTransitionAudit)
    (h : (perform_transition db entity_type entity_id from_state to_state user reason
      is_override).1 = Except.ok a) :
    (perform_transition db entity_type entity_id from_state to_state user reason
      is_override).2.audits = db.audits ++ [a] ∧
    a.pk.isSome = true ∧
    LifecycleTransitionAudit.save a
      (perform_transition db entity_type entity_id from_state to_state user reason is_override).2
      = Except.error "Lifecycle audit entries are immutable and cannot be modified" ∧
    LifecycleTransitionAudit.delete a
      (perform_transition db entity_type entity_id from_state to_state user reason is_override).2
      = Except.error "Lifecycle audit entries are immutable and cannot be deleted" := by
  by_cases hv : (validate_transition db entity_type from_state to_state reason user).1 = true
  · simp only [perform_transition, hv, if_true, Except.ok.injEq] at h ⊢
    subst h
    simp [LifecycleTransitionAudit.save, LifecycleTransitionAudit.delete]
  · rw [Bool.not_eq_true] at hv
    simp [perform_transition, hv] at h

/-- Witness for C3: a single draft → submitted rule; the successful
transition leaves exactly one audit entry in the table. -/
theorem audit_exactly_once_immutable_witness :
    (perform_transition ⟨[], [⟨"order", "draft", "submitted", "", false, true⟩], []⟩
      "order" "e1" "draft" "submitted" none none false).2.audits
      = [⟨some 0, none, "order", "e1", "draft", "submitted", "", false⟩] := by
  have h := audit_exactly_once_immutable
    ⟨[], [⟨"order", "draft", "submitted", "", false, true⟩], []⟩
    "order" "e1" "draft" "submitted" none none false
    ⟨some 0, none, "order", "e1", "draft", "submitted", "", false⟩ rfl
  simpa using h.1

/-- The configuration exercising claim C1: "held" is an active state of
type `locked`, and an active rule row permits held → active with no
permission and no reason required. -/
def dbHeld : LifecycleDB :=
  { stateDefs := [⟨"order", "held", "Held", StateType.locked, false, true⟩,
                  ⟨"order", "active", "Active", StateType.normal, true, true⟩]
    transitionRules := [⟨"order", "held", "active", "", false, true⟩]
    audits := [] }

/-- C1 evidence: from the locked state "held" with an active rule row for
held → active, the validator allows the edge and `perform_transition`
succeeds, yet `perform_lifecycle_transition` — the entity-level request
path — rejects the same request with `LockedStateError` purely because
the state is locked, contradicting the claim that a locked state does
not by itself cause a transition request to be rejected. -/
theorem locked_state_mixin_rejects_transition :
    can_transition dbHeld "order" "held" "active" (some ⟨"alice", []⟩) = true ∧
    (perform_transition dbHeld "order" "e1" "held" "active"
      (some ⟨"alice", []⟩) none false).1
      = Except.ok ⟨some 0, some ⟨"alice", []⟩, "order", "e1", "held", "active", "", false⟩ ∧
    (perform_lifecycle_transition dbHeld ⟨"order", "e1", "held"⟩ "active"
      (some ⟨"alice", []⟩) none false).1
      = Except.error (LifecycleErr.lockedState
          "Cannot modify entity in locked state: held") := by
  refine ⟨by decide, rfl, rfl⟩

end LifecycleTheorems

section NumberingTheorems

/-- Helper: `check_reset_needed` either declines and returns the row
unchanged, or fires and returns the reset row — value 0, dated today. -/
theorem check_reset_cases (rule : NumberingRule) (seq : NumberSequence) (today : Date) :
    check_reset_needed rule seq today = (false, seq) ∨
    check_reset_needed rule seq today
      = (true, { current_value := 0, last_reset_date := some today }) := by
  unfold check_reset_needed
  (repeat' split) <;> simp

/-- Helper: when `check_reset_needed` fires, the saved row is the reset
row — value 0 and today's date. -/
theorem check_reset_fires_to_zero (rule : NumberingRule) (seq : NumberSequence)
    (today : Date) (h : (check_reset_needed rule seq today).1 = true) :
    (check_reset_needed rule seq today).2
      = { current_value := 0, last_reset_date := some today } := by
  rcases check_reset_cases rule seq today with hc | hc
  · rw [hc] at h; simp at h
  · rw [hc]

/-- Helper: when `check_reset_needed` does not fire, it returns the row
unchanged. -/
theorem check_reset_no_fire (rule : NumberingRule) (seq : NumberSequence)
    (today : Date) (h : (check_reset_needed rule seq today).1 = false) :
    check_reset_needed rule seq today = (false, seq) := by
  rcases check_reset_cases rule seq today with hc | hc
  · exact hc
  · rw [hc] at h; simp at h

/-- Helper: the reset decision reads only the reset policy and the last
reset date, never the counter value. -/
theorem check_reset_fst_value_free (rule : NumberingRule) (v w : Nat)
    (ld : Option Date) (today : Date) :
    (check_reset_needed rule ⟨v, ld⟩ today).1
      = (check_reset_needed rule ⟨w, ld⟩ today).1 := by
  unfold check_reset_needed
  by_cases h0 : (rule.reset_behavior == "none") = true <;>
    by_cases h1 : (rule.reset_behavior == "yearly") = true <;>
    by_cases h2 : (rule.reset_behavior == "monthly") = true <;>
    cases ld <;>
    simp [h0, h1, h2, apply_ite Prod.fst]

/-- C7: the reset runs before the increment and follows the policy —
`yearly` fires exactly when no reset date is stored or its year differs
from today's, `monthly` when the year or month differs; a firing reset
stores value 0 with today's date; and the yearly rule whose counter is 42
dated last year returns 1, not 43, from the next call. -/
theorem sequence_reset_policy (rule : NumberingRule) (seq : NumberSequence) (today : Date) :
    (rule.reset_behavior = "yearly" →
      check_reset_needed rule seq today =
        match seq.last_reset_date with
        | none => (true, ⟨0, some today⟩)
        | some d =>
          if d.year ≠ today.year then (true, ⟨0, some today⟩) else (false, seq)) ∧
    (rule.reset_behavior = "monthly" →
      check_reset_needed rule seq today =
        match seq.last_reset_date with
        | none => (true, ⟨0, some today⟩)
        | some d =>
          if d.year ≠ today.year ∨ d.month ≠ today.month then (true, ⟨0, some today⟩)
          else (false, seq)) ∧
    ((check_reset_needed rule seq today).1 = true →
      (check_reset_needed rule seq today).2 = ⟨0, some today⟩) ∧
    get_next_sequence_value
      ⟨"invoice", true, "INV", true, "YYYY", false, 6, "-", "yearly"⟩
      ⟨42, some ⟨2025, 12, 31⟩⟩ ⟨2026, 1, 15⟩ = (1, ⟨1, some ⟨2026, 1, 15⟩⟩) := by
  refine ⟨?_, ?_, check_reset_fires_to_zero rule seq today, by decide⟩
  · intro h
    unfold check_reset_needed
    cases hld : seq.last_reset_date with
    | none => simp [h]
    | some d =>
      by_cases hy : d.year = today.year <;> simp [h, hld, hy]
  · intro h
    unfold check_reset_needed
    cases hld : seq.last_reset_date with
    | none => simp [h]
    | some d =>
      by_cases hy : d.year = today.year <;> by_cases hm : d.month = today.month <;>
        simp [h, hld, hy, hm]

/-- Witness for C7: the yearly rule fires across a year boundary and
resets the row to zero dated today. -/
theorem sequence_reset_policy_witness :
    check_reset_needed ⟨"invoice", true, "INV", true, "YYYY", false, 6, "-", "yearly"⟩
      ⟨42, some ⟨2025, 12, 31⟩⟩ ⟨2026, 1, 15⟩ = (true, ⟨0, some ⟨2026, 1, 15⟩⟩) := by
  have h := (sequence_reset_policy
    ⟨"invoice", true, "INV", true, "YYYY", false, 6, "-", "yearly"⟩
    ⟨42, some ⟨2025, 12, 31⟩⟩ ⟨2026, 1, 15⟩).1 rfl
  exact h.trans (by decide)

/-- C9: with no reset boundary crossed, successive calls on one rule
return exactly the previous counter value plus one: starting from counter
value v, n calls return v+1, v+2, …, v+n — a strictly increasing list
with no duplicates and no gaps. -/
theorem sequence_strictly_increasing (rule : NumberingRule) (seq : NumberSequence)
    (today : Date) (n : Nat)
    (h : (check_reset_needed rule seq today).1 = false) :
    nextCalls rule today seq n
      = (List.range n).map (fun i => seq.current_value + 1 + i) ∧
    List.Chain' (fun a b => a < b) (nextCalls rule today seq n) := by
  have hstep : ∀ s : NumberSequence, (check_reset_needed rule s today).1 = false →
      get_next_sequence_value rule s today
        = (s.current_value + 1, { s with current_value := s.current_value + 1 }) := by
    intro s hs
    have hid := check_reset_no_fire rule s today hs
    simp [get_next_sequence_value, hid]
  have main : ∀ m : Nat, ∀ s : NumberSequence,
      (check_reset_needed rule s today).1 = false →
      nextCalls rule today s m = (List.range m).map (fun i => s.current_value + 1 + i) := by
    intro m
    induction m with
    | zero => intro s _; simp [nextCalls]
    | succ k ih =>
      intro s hs
      have hs' : (check_reset_needed rule
          { s with current_value := s.current_value + 1 } today).1 = false :=
        (check_reset_fst_value_free rule (s.current_value + 1) s.current_value
          s.last_reset_date today).trans hs
      simp only [nextCalls, hstep s hs]
      rw [ih _ hs', List.range_succ_eq_map]
      simp only [List.map_cons, List.map_map]
      congr 1
      refine List.map_congr_left ?_
      intro i _
      simp only [Function.comp_apply]
      omega
  refine ⟨main n seq h, ?_⟩
  rw [main n seq h]
  exact List.Pairwise.chain'
    (List.Pairwise.map _ (fun a b hab => by omega) (List.pairwise_lt_range n))

/-- Witness for C9: a never-resetting rule with counter at 5 yields
6, 7, 8 from three successive calls. -/
theorem sequence_strictly_increasing_witness :
    nextCalls ⟨"invoice", true, "INV", true, "YYYY", false, 6, "-", "none"⟩
      ⟨2026, 1, 15⟩ ⟨5, none⟩ 3 = [6, 7, 8] := by
  have h := sequence_strictly_increasing
    ⟨"invoice", true, "INV", true, "YYYY", false, 6, "-", "none"⟩
    ⟨5, none⟩ ⟨2026, 1, 15⟩ 3 (by decide)
  rw [h.1]; decide

/-- C8: `format_number` concatenates, joined by the rule's delimiter and
in this order: the static prefix when non-empty, the year (two digits for
the `YY` format, the full year otherwise) when enabled, the zero-padded
two-digit month when enabled, and the sequence value zero-padded to the
configured width; in particular the INV rule with a 4-digit year, width 6
and delimiter "-" formats 123 in 2026 as "INV-2026-000123". -/
theorem number_format_layout :
    (∀ rule : NumberingRule, ∀ v : Nat, ∀ today : Date,
      format_number rule v today = String.intercalate rule.delimiter
        ((if rule.prefixText = "" then [] else [rule.prefixText]) ++
         (if rule.include_year then
            [if rule.year_format = "YY" then zfill 2 (toString (today.year % 100))
             else toString today.year] else []) ++
         (if rule.include_month then [zfill 2 (toString today.month)] else []) ++
         [zfill rule.sequence_length (toString v)])) ∧
    format_number ⟨"invoice", true, "INV", true, "YYYY", false, 6, "-", "yearly"⟩ 123
      ⟨2026, 3, 10⟩ = "INV-2026-000123" := by
  constructor
  · intro rule v today
    unfold format_number
    by_cases hp : rule.prefixText = "" <;>
      by_cases hy : rule.include_year = true <;>
      by_cases hm : rule.include_month = true <;>
      by_cases hyf : rule.year_format = "YY" <;>
      simp [hp, hy, hm, hyf]
  · decide

/-- Helper: drawing the next sequence value touches only the sequence
table — the rule and assignment tables come back unchanged. -/
theorem next_value_frame (db : NumberingDB) (rule : NumberingRule) (today : Date) :
    ((get_next_sequence_value_db db rule today).2).rules = db.rules ∧
    ((get_next_sequence_value_db db rule today).2).assigned = db.assigned := by
  unfold get_next_sequence_value_db get_or_create_sequence storeSequence
  (repeat' split) <;> simp

/-- C6: with an enabled rule and no prior assignment, `assign_number`
succeeds and appends exactly one `AssignedNumber` row for the entity; the
immediately following `assign_number` for the same (entity_type,
entity_id) fails with a validation error naming the first number, and —
the error branch returning before any write — leaves the first record
exactly as created. -/
theorem assign_number_exactly_once (db : NumberingDB)
    (entity_type entity_id user : String) (today : Date) (r : NumberingRule)
    (hr : findNumberingRule db entity_type = some r) (he : r.is_enabled = true)
    (hnone : db.assigned.find?
      (fun a => a.entity_type == entity_type && a.entity_id == entity_id) = none) :
    ∃ a db1,
      assign_number db entity_type entity_id user true today = Except.ok (a, db1) ∧
      db1.assigned = db.assigned ++ [a] ∧
      a.entity_type = entity_type ∧ a.entity_id = entity_id ∧
      assign_number db1 entity_type entity_id user true today
        = Except.error (NumberingErr.validationError
            (entity_type ++ ":" ++ entity_id ++ " already has assigned number: "
              ++ a.number)) := by
  have hgen : generate_number db entity_type today
      = Except.ok (format_number r (get_next_sequence_value_db db r today).1 today,
          (get_next_sequence_value_db db r today).2) := by
    simp [generate_number, hr, he]
  have hfr1 : findNumberingRule (get_next_sequence_value_db db r today).2 entity_type
      = some r := by
    show ((get_next_sequence_value_db db r today).2).rules.find? _ = some r
    rw [(next_value_frame db r today).1]
    exact hr
  refine ⟨⟨r.entity_type,
           entity_type, entity_id,
           format_number r (get_next_sequence_value_db db r today).1 today, user⟩,
          { (get_next_sequence_value_db db r today).2 with
            assigned := ((get_next_sequence_value_db db r today).2).assigned ++
              [⟨r.entity_type, entity_type, entity_id,
                format_number r (get_next_sequence_value_db db r today).1 today, user⟩] },
          ?_, ?_, rfl, rfl, ?_⟩
  · simp [assign_number, hnone, hgen, hfr1]
  · simp [(next_value_frame db r today).2]
  · have hfound : (((get_next_sequence_value_db db r today).2).assigned ++
        [(⟨r.entity_type, entity_type, entity_id,
          format_number r (get_next_sequence_value_db db r today).1 today, user⟩ :
            AssignedNumber)]).find?
        (fun a => a.entity_type == entity_type && a.entity_id == entity_id)
        = some ⟨r.entity_type, entity_type, entity_id,
            format_number r (get_next_sequence_value_db db r today).1 today, user⟩ := by
      rw [List.find?_append, (next_value_frame db r today).2, hnone]
      simp
    simp [assign_number, hfound]

/-- Witness for C6: one enabled invoice rule, a fresh database; the first
assignment succeeds and the duplicate request fails with the first
number in the message. -/
theorem assign_number_exactly_once_witness :
    ∃ a db1,
      assign_number ⟨[⟨"invoice", true, "INV", true, "YYYY", false, 6, "-", "yearly"⟩],
          [], []⟩ "invoice" "e1" "alice" true ⟨2026, 1, 15⟩ = Except.ok (a, db1) ∧
      db1.assigned = ([] : List AssignedNumber) ++ [a] ∧
      a.entity_type = "invoice" ∧ a.entity_id = "e1" ∧
      assign_number db1 "invoice" "e1" "alice" true ⟨2026, 1, 15⟩
        = Except.error (NumberingErr.validationError
            ("invoice" ++ ":" ++ "e1" ++ " already has assigned number: "
              ++ a.number)) :=
  assign_number_exactly_once
    ⟨[⟨"invoice", true, "INV", true, "YYYY", false, 6, "-", "yearly"⟩], [], []⟩
    "invoice" "e1" "alice" ⟨2026, 1, 15⟩
    ⟨"invoice", true, "INV", true, "YYYY", false, 6, "-", "yearly"⟩ rfl rfl rfl

end NumberingTheorems

end Brixa
